import Mathlib

/-!
Verification of the AutoCV repository against its natural-language
specification.  The Python sources under `src/AutoCV/src` are shallowly
embedded: pure computations become Lean functions, dictionary access with
defaults becomes `Option` with `getD`, Python truthiness of strings and
lists becomes explicit emptiness tests, and external services (HTTP
transport, the JSON/YAML parsers of the standard library, the browser
driver, the Jinja template engine) become explicit parameters of the
embedded functions.
-/

namespace AutoCV

/-- Python truthiness of a value obtained by `dict.get(key)`: `None`
(missing key, here `none`) and the empty string are falsy. -/
def truthyStr : Option String → Bool
  | none => false
  | some s => !s.isEmpty

/-- Python truthiness for an optional list value: missing and `[]` are falsy. -/
def truthyList {α : Type} : Option (List α) → Bool
  | none => false
  | some l => !l.isEmpty

/-- Value of a digit run. -/
def digitsToNat (l : List Char) : Nat :=
  l.foldl (fun acc c => acc * 10 + (c.toNat - 48)) 0

/-- Python slice `s[:n]` on a string (character indices). -/
def strTake (s : String) (n : Nat) : String :=
  ⟨s.data.take n⟩

/-! ## Profile store (`src/core/profile_manager.py`)

`Experience.duration_months` parses `fecha_inicio`/`fecha_fin` with
`datetime.strptime(_, "%Y-%m")` and returns
`(end.year - start.year) * 12 + (end.month - start.month)`,
with `datetime.now()` standing in for a missing end date and `0` returned
when parsing raises. -/

/-- One entry of the raw YAML `habilidades_tecnicas.lenguajes` /
`.frameworks` lists: either a mapping with `nombre`/`nivel` or a bare
string. -/
inductive SkillItem where
  | named (nombre : String) (nivel : Option String)
  | plain (s : String)
deriving Repr, DecidableEq

/-- The raw `habilidades_tecnicas` mapping of the profile document. -/
structure HabilidadesTecnicas where
  lenguajes : Option (List SkillItem)
  frameworks : Option (List SkillItem)
  bases_datos : Option (List String)
  devops_cloud : Option (List String)
  herramientas : Option (List String)
deriving Repr, DecidableEq

/-- The raw `personal_information` mapping (the four required fields plus
the optional ones the HTML renderer reads). -/
structure PersonalInformationDict where
  nombre : Option String
  apellidos : Option String
  email : Option String
  telefono : Option String
  linkedin : Option String
  github : Option String
  ubicacion_ciudad : Option String
  ubicacion_pais : Option String
deriving Repr, DecidableEq

/-- An entry of the raw `experiencia` list (the keys `validate_profile`
and the renderer read). -/
structure ExperienceDict where
  puesto : Option String
  empresa : Option String
  fecha_inicio : Option String
  fecha_fin : Option String
  responsabilidades : Option (List String)
deriving Repr, DecidableEq

/-- An entry of the raw `educacion` list. -/
structure EducationDict where
  titulo : Option String
  institucion : Option String
  fecha_inicio : Option String
  fecha_fin : Option String
deriving Repr, DecidableEq

/-- An entry of the raw `idiomas` list. -/
structure LangEntry where
  idioma : Option String
  nivel : Option String
deriving Repr, DecidableEq

/-- The raw profile document (`yaml.safe_load` of `mi_perfil.yaml`); each
top-level key may be absent. -/
structure ProfileDoc where
  personal_information : Option PersonalInformationDict
  educacion : Option (List EducationDict)
  experiencia : Option (List ExperienceDict)
  habilidades_tecnicas : Option HabilidadesTecnicas
  idiomas : Option (List LangEntry)
deriving Repr, DecidableEq

/-- The all-`none` mapping, the `{}` default of `profile.get(key, {})`. -/
def emptyPersonal : PersonalInformationDict := ⟨none, none, none, none, none, none, none, none⟩

/-- The `{}` default for `habilidades_tecnicas`. -/
def emptyHabilidades : HabilidadesTecnicas := ⟨none, none, none, none, none⟩

/-- Issues of one experience entry, `i` its 0-based position
(`enumerate` starts the displayed number at `i+1`). -/
def experienceIssues (i : Nat) (exp : ExperienceDict) : List String :=
  (if truthyStr exp.puesto then [] else
    ["Experiencia #" ++ toString (i + 1) ++ ": falta el puesto"]) ++
  (if truthyStr exp.empresa then [] else
    ["Experiencia #" ++ toString (i + 1) ++ ": falta la empresa"]) ++
  (if truthyList exp.responsabilidades then [] else
    ["Experiencia #" ++ toString (i + 1) ++ ": faltan responsabilidades"])

/-- `ProfileManager.validate_profile`: collect the issue messages in source
order — required personal fields, education, experience entries, languages
under `habilidades_tecnicas.lenguajes`. -/
def validate_profile (p : ProfileDoc) : List String :=
  let personal := p.personal_information.getD emptyPersonal
  let personalIssues :=
    (if truthyStr personal.nombre then [] else
      ["Falta campo requerido: personal_information.nombre"]) ++
    (if truthyStr personal.apellidos then [] else
      ["Falta campo requerido: personal_information.apellidos"]) ++
    (if truthyStr personal.email then [] else
      ["Falta campo requerido: personal_information.email"]) ++
    (if truthyStr personal.telefono then [] else
      ["Falta campo requerido: personal_information.telefono"])
  let eduIssues :=
    if (p.educacion.getD []).isEmpty then ["No hay entradas de educación"] else []
  let experiencia := p.experiencia.getD []
  let expIssues :=
    if experiencia.isEmpty then ["No hay entradas de experiencia laboral"]
    else (experiencia.enum.map (fun ie => experienceIssues ie.1 ie.2)).flatten
  let habilidades := p.habilidades_tecnicas.getD emptyHabilidades
  let skillIssues :=
    if truthyList habilidades.lenguajes then []
    else ["No hay lenguajes de programación listados"]
  personalIssues ++ eduIssues ++ expIssues ++ skillIssues

/-! ## Content personalizer, structured-response parsing
(`src/ai/cv_personalizer.py`)

`analyze_job` and `calculate_match_score` send a prompt to the gateway and
then parse the raw response: locate the first `'{'` and the last `'}'`,
feed that span to `json.loads`, and degrade on failure.  The external
`json.loads` is a parameter (`jsonParse`); the span location, the fallback
records and the bare-number extraction are embedded concretely. -/

/-- A JSON value as far as the personalizer manipulates one. -/
inductive Json where
  | num (n : Int)
  | str (s : String)
  | obj (fields : List (String × Json))
deriving Repr

/-- The opening-brace character (code point 123). -/
def lbraceChar : Char := Char.ofNat 123

/-- The closing-brace character (code point 125). -/
def rbraceChar : Char := Char.ofNat 125

/-- Python `str.find(c)`: index of the first occurrence, `None` for `-1`. -/
def strFind (s : String) (c : Char) : Option Nat :=
  s.data.findIdx? (· = c)

/-- Python `str.rfind(c)`: index of the last occurrence, `None` for `-1`. -/
def strRfind (s : String) (c : Char) : Option Nat :=
  match s.data.reverse.findIdx? (· = c) with
  | none => none
  | some i => some (s.data.length - 1 - i)

/-- Python slice `s[a:b]` on a string (character indices). -/
def strSlice (s : String) (a b : Nat) : String :=
  ⟨(s.data.drop a).take (b - a)⟩

/-- `re.search(r'(\d{1,3})%?', s)`: the leftmost digit, greedily extended
to at most three digits, converted with `int`; `none` when the text holds
no digit at all. -/
def firstNumber : List Char → Option Nat
  | [] => none
  | c :: cs =>
    if c.isDigit then some (digitsToNat (c :: (cs.takeWhile Char.isDigit).take 2))
    else firstNumber cs

/-- The fallback record of `calculate_match_score` built when the response
holds no `{...}` span: score from the first bare number, else 50. -/
def matchScoreNumberFallback (response : String) : Json :=
  Json.obj [("score_total", Json.num ((firstNumber response.data).getD 50 : Nat)),
            ("raw_response", Json.str response)]

/-- Response parsing of `CVPersonalizer.calculate_match_score`
(lines 113–125): if `response.find('{') != -1` and
`response.rfind('}') + 1 > json_start`, run `json.loads` on the span —
a failure there is caught by the bare `except` and yields
`{"score_total": 50, "raw_response": response}`; otherwise extract the
first bare number from the whole response (default 50). -/
def calculateMatchScoreParse (jsonParse : String → Option Json) (response : String) : Json :=
  match strFind response lbraceChar, strRfind response rbraceChar with
  | some jsonStart, some rb =>
    if jsonStart < rb + 1 then
      match jsonParse (strSlice response jsonStart (rb + 1)) with
      | some v => v
      | none => Json.obj [("score_total", Json.num 50), ("raw_response", Json.str response)]
    else matchScoreNumberFallback response
  | some _, none => matchScoreNumberFallback response
  | none, _ => matchScoreNumberFallback response

/-- Response parsing of `CVPersonalizer.analyze_job` (lines 58–70): same
span location, but both the missing-span case and a `json.JSONDecodeError`
degrade to `{"raw_analysis": response}`. -/
def analyzeJobParse (jsonParse : String → Option Json) (response : String) : Json :=
  match strFind response lbraceChar, strRfind response rbraceChar with
  | some jsonStart, some rb =>
    if jsonStart < rb + 1 then
      match jsonParse (strSlice response jsonStart (rb + 1)) with
      | some v => v
      | none => Json.obj [("raw_analysis", Json.str response)]
    else Json.obj [("raw_analysis", Json.str response)]
  | some _, none => Json.obj [("raw_analysis", Json.str response)]
  | none, _ => Json.obj [("raw_analysis", Json.str response)]

/-! ## Language-model gateway (`src/ai/ollama_client.py`)

Each client method makes one synchronous `requests` call.  The transport
outcome of that call is the embedded parameter: a reply with its HTTP
status and (already decoded) payload, a `requests.Timeout`, or another
`requests.RequestException` (connection refused, etc.).
`response.raise_for_status()` raises `requests.HTTPError` — itself a
`RequestException` — for statuses `≥ 400`. -/

/-- Outcome of one `requests.get`/`requests.post` call. -/
inductive Transport (β : Type) where
  | resp (status : Nat) (body : β)
  | timeout
  | refused
deriving Repr, DecidableEq

/-- Errors `OllamaClient` lets escape to its caller. -/
inductive ClientError where
  | timeoutError
  | requestError
deriving Repr, DecidableEq

/-- `OllamaClient.check_connection`: `status == 200`, any
`RequestException` degrades to `False`. -/
def checkConnection (t : Transport Unit) : Bool :=
  match t with
  | .resp status _ => status == 200
  | .timeout => false
  | .refused => false

/-- `OllamaClient.list_models`: `raise_for_status` then the decoded model
names; any `RequestException` (including the `HTTPError` of a status
`≥ 400`) degrades to `[]`. -/
def listModels (t : Transport (List String)) : List String :=
  match t with
  | .resp status names => if 400 ≤ status then [] else names
  | .timeout => []
  | .refused => []

/-- `OllamaClient.generate`: `raise_for_status` then the response text;
`requests.Timeout` is re-raised as `TimeoutError`, every other
`RequestException` is re-raised as is. -/
def generate (t : Transport String) : Except ClientError String :=
  match t with
  | .resp status text => if 400 ≤ status then .error .requestError else .ok text
  | .timeout => .error .timeoutError
  | .refused => .error .requestError

/-- `OllamaClient.chat`: `raise_for_status` then the message content; any
`RequestException` (timeouts included) is re-raised. -/
def chat (t : Transport String) : Except ClientError String :=
  match t with
  | .resp status content => if 400 ≤ status then .error .requestError else .ok content
  | .timeout => .error .requestError
  | .refused => .error .requestError

/-- `OllamaClient.embed` (lines 247–271): `raise_for_status` then
`json().get('embedding', [])` — but the `except RequestException` handler
returns `[]` instead of re-raising, so no transport failure ever escapes.
The result type still offers `ClientError` so that the raising and the
degrading contracts can be compared. -/
def embed {α : Type} (t : Transport (List α)) : Except ClientError (List α) :=
  match t with
  | .resp status vec => if 400 ≤ status then .ok [] else .ok vec
  | .timeout => .ok []
  | .refused => .ok []

/-! ## Job-posting pipeline (`src/scraper/linkedin_scraper.py`)

`_fetch_descriptions_parallel` submits `fetch_description` for every
posting to a `ThreadPoolExecutor`, collects results in *completion* order
(`as_completed`), then rebuilds the caller-visible list: a dict keyed by
posting id (later completions overwrite earlier ones) looked up in the
original order, with the original posting as the `get` default.

External effects are parameters of `FetchEnv`: the HTTP GET (`none` models
a raised exception), the regex patterns applied to the body together with
the tag-stripping / whitespace-collapse / entity-decode cleanup (one
cleaned candidate per matching pattern, in pattern order), and the
browser-driven extraction tiers of `_get_job_description` (whose final
length guard and placeholders are embedded concretely). -/

/-- A scraped posting as built by `_extract_job_from_card`; `description`
is absent until a fetch fills it. -/
structure Job where
  id : String
  title : String
  company : String
  location : String
  url : String
  description : Option String
deriving Repr, DecidableEq

/-- The ambient effects of one description fetch. -/
structure FetchEnv where
  /-- `requests.get(url, ...)` → status and body, `none` for an exception. -/
  httpGet : String → Option (Nat × String)
  /-- Cleaned text of each extraction pattern that matched the body, in
  pattern order (models the three regexes plus the cleanup steps). -/
  patternMatches : String → List String
  /-- Whether `self.driver` holds a live browser session. -/
  hasDriver : Bool
  /-- Browser-driven candidate selection of `_get_job_description` before
  its final length guard: the text chosen across the selector, section and
  keyword-div tiers; `none` models an exception inside that method. -/
  seleniumText : String → Option String

/-- `picks the longest match`: `if len(desc) > len(description)` keeps the
strictly longer candidate, so the first of equally long candidates wins
and an empty start value stands for "no match yet". -/
def longestMatch (candidates : List String) : String :=
  candidates.foldl (fun acc d => if acc.length < d.length then d else acc) ("")

/-- `LinkedInScraper._get_job_description` (lines 605–708): the multi-tier
browser extraction (abstracted as `seleniumText`) followed by the concrete
final guard — text kept only when non-empty and longer than 50 characters,
otherwise a literal placeholder; any exception degrades to
`"Descripción no disponible"`. -/
def getJobDescription (env : FetchEnv) (jobUrl : String) : String :=
  match env.seleniumText jobUrl with
  | none => "Descripción no disponible"
  | some d =>
    if !d.isEmpty && 50 < d.length then d
    else "Descripción no disponible - visita la URL para más detalles"

/-- The inner `fetch_description` of `_fetch_descriptions_parallel`
(lines 372–420): empty URL → `"URL no disponible"`; HTTP 200 → longest
cleaned pattern match, kept (truncated to 5000 characters) when non-empty
and longer than 50 characters, else browser fallback when a driver exists,
else `"Descripción no disponible"`; non-200 → `"Error al obtener
descripción"`; exception → `"Descripción no disponible"`. -/
def fetchDescription (env : FetchEnv) (job : Job) : Job :=
  if job.url.isEmpty then { job with description := some ("URL no disponible") }
  else
    match env.httpGet job.url with
    | some (status, html) =>
      if status = 200 then
        let description := longestMatch (env.patternMatches html)
        if !description.isEmpty && 50 < description.length then
          { job with description := some (strTake description 5000) }
        else
          let fallback :=
            if env.hasDriver then getJobDescription env job.url
            else "Descripción no disponible"
          { job with description := some fallback }
      else { job with description := some ("Error al obtener descripción") }
    | none => { job with description := some ("Descripción no disponible") }

/-- `{job['id']: job for job in results}` followed by `.get(id, default)`:
the *last* result carrying `id` wins, `none` when no result does. -/
def lastWithId (results : List Job) (id : String) : Option Job :=
  (results.filter (fun r => r.id = id)).getLast?

/-- The re-emission step of `_fetch_descriptions_parallel`
(lines 437–439): look every original posting up by id in the
completion-order results, falling back to the original posting. -/
def reassembleInOrder (jobs results : List Job) : List Job :=
  jobs.map (fun j => (lastWithId results j.id).getD j)

/-! ## Document generator, job loading (`src/core/cv_generator.py`) -/

/-- A stored posting document as `CVGenerator._load_job` reads it. -/
structure GenJob where
  id : String
  title : String
  company : String
  description : String
  location : String
deriving Repr, DecidableEq

/-- One `data/ofertas/*.json` file: its path and its parsed content
(files `json.load` rejects are skipped by the `except: continue`). -/
structure StoredJob where
  path : String
  job : GenJob
deriving Repr, DecidableEq

/-- The hard-coded substitute returned when no stored document matches
(`"usando datos de prueba"`). -/
def testJob (jobId : String) : GenJob :=
  ⟨jobId, "Software Developer", "Test Company", "Looking for a skilled developer...", "Remote"⟩

/-- Python `needle in hay` on strings: some drop of `hay` starts with
`needle`. -/
def strContains (hay needle : String) : Bool :=
  (List.range (hay.data.length + 1)).any (fun i => needle.data.isPrefixOf (hay.data.drop i))

/-- `CVGenerator._load_job` (lines 115–137): first stored document whose
id starts with the requested id or whose file path contains it; when none
matches, the substitute test job — never `None`. -/
def loadJob (store : List StoredJob) (jobId : String) : Option GenJob :=
  match store.find? (fun e => e.job.id.startsWith jobId || strContains e.path jobId) with
  | some e => some e.job
  | none => some (testJob jobId)

/-- The not-found guard of `CVGenerator.generate` (lines 65–67):
`if not job: raise ValueError(f"Oferta no encontrada: {job_id}")` — a
missing (`None`/empty) result would raise, any loaded document passes. -/
def generateLoadStep (store : List StoredJob) (jobId : String) : Except String GenJob :=
  match loadJob store jobId with
  | some j => .ok j
  | none => .error ("Oferta no encontrada: " ++ jobId)

/-- `ProfileManager.load_profile` (lines 77–86): missing file →
`FileNotFoundError(f"Perfil no encontrado: {path}")`, else the parsed
document. -/
def loadProfile (path : String) (stored : Option ProfileDoc) : Except String ProfileDoc :=
  match stored with
  | none => .error ("Perfil no encontrado: " ++ path)
  | some p => .ok p

/-! ## Dashboard task state (`src/web/app.py`)

`app_state` is the process-wide mutable record; the two start endpoints
test-and-set `current_task`, and the synchronous runners clear it in a
`finally` block, so it is reset on completion and on failure alike. -/

/-- The dashboard's in-memory task state (the `app_state` keys the
background-task machinery touches). -/
structure AppTaskState where
  currentTask : Option String
  taskProgress : Nat
  taskMessage : String
  taskLogs : List String
deriving Repr, DecidableEq

/-- `POST /api/search` (lines 279–299): reject with HTTP 400 while
`current_task` is truthy, otherwise set the flag and the fresh progress
fields *before* dispatching the background task, and acknowledge. -/
def startSearch (s : AppTaskState) : Except String String × AppTaskState :=
  if truthyStr s.currentTask then
    (.error ("Ya hay una tarea en ejecución"), s)
  else
    (.ok ("Búsqueda iniciada"),
     { s with currentTask := some ("search"), taskProgress := 0,
              taskMessage := "Iniciando búsqueda...", taskLogs := [] })

/-- `POST /api/generate` (lines 302–319): same test-and-set with the
`"generate"` flag. -/
def startGenerate (s : AppTaskState) : Except String String × AppTaskState :=
  if truthyStr s.currentTask then
    (.error ("Ya hay una tarea en ejecución"), s)
  else
    (.ok ("Generación iniciada"),
     { s with currentTask := some ("generate"), taskProgress := 0,
              taskMessage := "Iniciando generación...", taskLogs := [] })

/-- `_sync_search` / `_sync_generate` (lines 496–543 and 561–602): the
try/except body — scraping or generation work plus progress and log
updates, abstracted as `body` since it wraps external subsystems and runs
whether it ends normally or by exception — followed by the `finally` block
`app_state["current_task"] = None`, which executes on both paths. -/
def runSyncTask (body : AppTaskState → AppTaskState) (s : AppTaskState) : AppTaskState :=
  { body s with currentTask := none }

/-- `POST /api/profile` (lines 216–231): `yaml.safe_load(data.content)`
runs *before* the file is opened for writing; a `yaml.YAMLError` therefore
turns into an HTTP 400 with the stored file untouched, while a valid body
replaces the file content.  The external YAML parser is the `yamlParse`
parameter; `stored` is the current content of `data/mi_perfil.yaml`. -/
def updateProfile {Y : Type} (yamlParse : String → Option Y) (content : String)
    (stored : Option String) : Except String String × Option String :=
  match yamlParse content with
  | none => (.error ("Error en formato YAML"), stored)
  | some _ => (.ok ("Perfil actualizado correctamente"), some content)

/-! ## Document renderer (`src/core/cv_generator.py`, lines 139–466)

`_generate_html` renders the Jinja template `cv_template.html` with the
personalized record, the job and `generated_at = datetime.now().strftime(
"%Y-%m-%d %H:%M")`; when no template directory exists or the template
raises, it falls back to `_generate_basic_html`, a hand-built f-string that
reads only the CV record.  The `datetime.now()` read is the function's only
ambient input and is passed here as the explicit `generatedAt` parameter;
the external template engine is the `tmpl` parameter (`none` covering both
the missing directory and the caught template exception). -/

/-- The `optimized_experience` field as the fallback renderer inspects it:
a dict holding `original` (what `optimize_experience` produces), a plain
list, or anything else (rendered as no experience). -/
inductive ExperienceField where
  | wrapped (original : List ExperienceDict)
  | listVal (l : List ExperienceDict)
  | otherVal
deriving Repr, DecidableEq

/-- The `exp_list` selection of `_generate_basic_html` (lines 354–358). -/
def expList : ExperienceField → List ExperienceDict
  | .wrapped l => l
  | .listVal l => l
  | .otherVal => []

/-- The personalized-CV record (the keys `_generate_basic_html` reads;
`optimized_skills = some h` models the dict produced by `optimize_skills`,
whose `original` entry is `h`). -/
structure CVRecord where
  personal_information : Option PersonalInformationDict
  personalized_summary : Option String
  optimized_experience : ExperienceField
  education : Option (List EducationDict)
  optimized_skills : Option HabilidadesTecnicas
  languages : Option (List LangEntry)

/-- The static CSS of the fallback skeleton (the `{{`/`}}` of the f-string
render as single braces, written `\x7b`/`\x7d` here). -/
def cvCss : String :=
  "        * \x7b\n            margin: 0;\n            padding: 0;\n            box-sizing: border-box;\n        \x7d\n        \n" ++
  "        body \x7b\n            font-family: \x27Inter\x27, -apple-system, BlinkMacSystemFont, sans-serif;\n            line-height: 1.6;\n            color: #1a1a1a;\n            max-width: 210mm;\n            margin: 0 auto;\n            padding: 20mm;\n            background: white;\n        \x7d\n        \n" ++
  "        header \x7b\n            border-bottom: 2px solid #2563eb;\n            padding-bottom: 20px;\n            margin-bottom: 25px;\n        \x7d\n        \n" ++
  "        h1 \x7b\n            font-size: 28px;\n            font-weight: 700;\n            color: #1e3a5f;\n            margin-bottom: 8px;\n        \x7d\n        \n" ++
  "        .contact-info \x7b\n            display: flex;\n            flex-wrap: wrap;\n            gap: 15px;\n            font-size: 13px;\n            color: #4b5563;\n        \x7d\n        \n" ++
  "        .contact-info a \x7b\n            color: #2563eb;\n            text-decoration: none;\n        \x7d\n        \n" ++
  "        .summary \x7b\n            background: #f8fafc;\n            padding: 15px 20px;\n            border-left: 4px solid #2563eb;\n            margin-bottom: 25px;\n            font-size: 14px;\n        \x7d\n        \n" ++
  "        section \x7b\n            margin-bottom: 25px;\n        \x7d\n        \n" ++
  "        h2 \x7b\n            font-size: 16px;\n            font-weight: 600;\n            color: #1e3a5f;\n            text-transform: uppercase;\n            letter-spacing: 1px;\n            border-bottom: 1px solid #e5e7eb;\n            padding-bottom: 8px;\n            margin-bottom: 15px;\n        \x7d\n        \n" ++
  "        .experience-item, .education-item \x7b\n            margin-bottom: 18px;\n        \x7d\n        \n" ++
  "        .item-header \x7b\n            display: flex;\n            justify-content: space-between;\n            align-items: baseline;\n            margin-bottom: 5px;\n        \x7d\n        \n" ++
  "        .job-title \x7b\n            font-weight: 600;\n            font-size: 15px;\n            color: #1f2937;\n        \x7d\n        \n" ++
  "        .company \x7b\n            color: #2563eb;\n            font-size: 14px;\n        \x7d\n        \n" ++
  "        .dates \x7b\n            font-size: 13px;\n            color: #6b7280;\n        \x7d\n        \n" ++
  "        .responsibilities \x7b\n            list-style: none;\n            padding-left: 0;\n        \x7d\n        \n" ++
  "        .responsibilities li \x7b\n            position: relative;\n            padding-left: 18px;\n            margin-bottom: 5px;\n            font-size: 13px;\n        \x7d\n        \n" ++
  "        .responsibilities li::before \x7b\n            content: \"•\";\n            position: absolute;\n            left: 0;\n            color: #2563eb;\n            font-weight: bold;\n        \x7d\n        \n" ++
  "        .skills-grid \x7b\n            display: grid;\n            grid-template-columns: repeat(2, 1fr);\n            gap: 15px;\n        \x7d\n        \n" ++
  "        .skill-category h3 \x7b\n            font-size: 13px;\n            font-weight: 600;\n            color: #374151;\n            margin-bottom: 8px;\n        \x7d\n        \n" ++
  "        .skill-list \x7b\n            display: flex;\n            flex-wrap: wrap;\n            gap: 6px;\n        \x7d\n        \n" ++
  "        .skill-tag \x7b\n            background: #eff6ff;\n            color: #1d4ed8;\n            padding: 4px 10px;\n            border-radius: 4px;\n            font-size: 12px;\n        \x7d\n        \n" ++
  "        .languages \x7b\n            display: flex;\n            gap: 20px;\n        \x7d\n        \n" ++
  "        .language-item \x7b\n            font-size: 13px;\n        \x7d\n        \n" ++
  "        .language-item strong \x7b\n            color: #1f2937;\n        \x7d\n        \n" ++
  "        @media print \x7b\n            body \x7b\n                padding: 15mm;\n            \x7d\n        \x7d\n"

/-- `{f'<a href="{...}">LinkedIn</a>' if personal.get('linkedin') else ''}`. -/
def linkedinLink (p : PersonalInformationDict) : String :=
  if truthyStr p.linkedin then "<a href=\"" ++ p.linkedin.getD ("") ++ "\">LinkedIn</a>" else ""

/-- The analogous GitHub link fragment. -/
def githubLink (p : PersonalInformationDict) : String :=
  if truthyStr p.github then "<a href=\"" ++ p.github.getD ("") ++ "\">GitHub</a>" else ""

/-- Head, header and summary of the fallback skeleton (lines 169–351),
`personal = cv.get('personal_information', {})` already resolved. -/
def cvHeadHtml (personal : PersonalInformationDict) (summary : String) : String :=
  "<!DOCTYPE html>\n<html lang=\"es\">\n<head>\n    <meta charset=\"UTF-8\">\n" ++
  "    <meta name=\"viewport\" content=\"width=device-width, initial-scale=1.0\">\n" ++
  "    <title>CV - " ++ personal.nombre.getD ("") ++ " " ++ personal.apellidos.getD ("") ++ "</title>\n" ++
  "    <link href=\"https://fonts.googleapis.com/css2?family=Inter:wght@400;500;600;700&display=swap\" rel=\"stylesheet\">\n" ++
  "    <style>\n" ++ cvCss ++ "    </style>\n</head>\n<body>\n    <header>\n" ++
  "        <h1>" ++ personal.nombre.getD ("") ++ " " ++ personal.apellidos.getD ("") ++ "</h1>\n" ++
  "        <div class=\"contact-info\">\n" ++
  "            <span>📧 " ++ personal.email.getD ("") ++ "</span>\n" ++
  "            <span>📱 " ++ personal.telefono.getD ("") ++ "</span>\n" ++
  "            <span>📍 " ++ personal.ubicacion_ciudad.getD ("") ++ ", " ++ personal.ubicacion_pais.getD ("") ++ "</span>\n" ++
  "            " ++ linkedinLink personal ++ "\n" ++
  "            " ++ githubLink personal ++ "\n" ++
  "        </div>\n    </header>\n    \n    <div class=\"summary\">\n" ++
  "        " ++ summary ++ "\n    </div>\n"

/-- `exp.get('fecha_fin', 'Actual') or 'Actual'`: a missing, `None` or
empty value renders as `"Actual"`. -/
def fechaFinActual : Option String → String
  | none => "Actual"
  | some s => if s.isEmpty then "Actual" else s

/-- One `experience-item` block (lines 367–383). -/
def expItemHtml (exp : ExperienceDict) : String :=
  "\n        <div class=\"experience-item\">\n            <div class=\"item-header\">\n                <div>\n" ++
  "                    <span class=\"job-title\">" ++ exp.puesto.getD ("") ++ "</span>\n" ++
  "                    <span class=\"company\"> @ " ++ exp.empresa.getD ("") ++ "</span>\n" ++
  "                </div>\n" ++
  "                <span class=\"dates\">" ++ exp.fecha_inicio.getD ("") ++ " - " ++ fechaFinActual exp.fecha_fin ++ "</span>\n" ++
  "            </div>\n            <ul class=\"responsibilities\">\n" ++
  String.join (((exp.responsabilidades.getD []).take 5).map
    (fun r => "                <li>" ++ r ++ "</li>\n")) ++
  "            </ul>\n        </div>\n"

/-- The experience section (lines 360–384), empty when `exp_list` is. -/
def experienceSectionHtml (l : List ExperienceDict) : String :=
  if l.isEmpty then ""
  else "\n    <section>\n        <h2>Experiencia Profesional</h2>\n" ++
       String.join (l.map expItemHtml) ++ "    </section>\n"

/-- One `education-item` block (lines 394–404). -/
def eduItemHtml (edu : EducationDict) : String :=
  "\n        <div class=\"education-item\">\n            <div class=\"item-header\">\n                <div>\n" ++
  "                    <span class=\"job-title\">" ++ edu.titulo.getD ("") ++ "</span>\n" ++
  "                    <span class=\"company\"> - " ++ edu.institucion.getD ("") ++ "</span>\n" ++
  "                </div>\n" ++
  "                <span class=\"dates\">" ++ edu.fecha_inicio.getD ("") ++ " - " ++ edu.fecha_fin.getD ("") ++ "</span>\n" ++
  "            </div>\n        </div>\n"

/-- The education section (lines 387–405). -/
def educationSectionHtml (l : List EducationDict) : String :=
  if l.isEmpty then ""
  else "\n    <section>\n        <h2>Educación</h2>\n" ++
       String.join (l.map eduItemHtml) ++ "    </section>\n"

/-- `lang.get('nombre', lang) if isinstance(lang, dict) else lang`. -/
def skillName : SkillItem → String
  | .named nombre _ => nombre
  | .plain s => s

/-- One skill category block (lines 420–429 / 432–442). -/
def skillCategoryHtml (titulo : String) (items : List SkillItem) : String :=
  "            <div class=\"skill-category\">\n                <h3>" ++ titulo ++ "</h3>\n" ++
  "                <div class=\"skill-list\">\n" ++
  String.join ((items.take 6).map
    (fun it => "                    <span class=\"skill-tag\">" ++ skillName it ++ "</span>\n")) ++
  "                </div>\n            </div>\n"

/-- The skills section (lines 408–446): the grid is always emitted, the
two category blocks only when `optimized_skills` is a dict holding
`original` and the corresponding list is truthy. -/
def skillsSectionHtml (skills : Option HabilidadesTecnicas) : String :=
  "\n    <section>\n        <h2>Habilidades Técnicas</h2>\n        <div class=\"skills-grid\">\n" ++
  (match skills with
   | none => ""
   | some original =>
     (if truthyList original.lenguajes then
        skillCategoryHtml ("Lenguajes") (original.lenguajes.getD []) else "") ++
     (if truthyList original.frameworks then
        skillCategoryHtml ("Frameworks") (original.frameworks.getD []) else "")) ++
  "        </div>\n    </section>\n"

/-- The languages section (lines 449–460). -/
def languagesSectionHtml (l : List LangEntry) : String :=
  if l.isEmpty then ""
  else "\n    <section>\n        <h2>Idiomas</h2>\n        <div class=\"languages\">\n" ++
       String.join (l.map (fun lang =>
         "            <div class=\"language-item\"><strong>" ++ lang.idioma.getD ("") ++
         "</strong>: " ++ lang.nivel.getD ("") ++ "</div>\n")) ++
       "        </div>\n    </section>\n"

/-- `CVGenerator._generate_basic_html` (lines 160–466): the hand-built
fallback skeleton.  It reads only the CV record — the `job` argument of
the Python function is never used — and in particular no timestamp. -/
def generateBasicHtml (cv : CVRecord) (job : GenJob) : String :=
  let _ := job
  let personal := cv.personal_information.getD emptyPersonal
  cvHeadHtml personal (cv.personalized_summary.getD ("Profesional con experiencia...")) ++
  experienceSectionHtml (expList cv.optimized_experience) ++
  educationSectionHtml (cv.education.getD []) ++
  skillsSectionHtml cv.optimized_skills ++
  languagesSectionHtml (cv.languages.getD []) ++
  "\n</body>\n</html>"

/-- `CVGenerator._generate_html` (lines 139–158): render the external
Jinja template with the record, the job and the formatted generation
timestamp; fall back to the hand-built skeleton when no template engine is
configured or the template raises (both modelled by `tmpl = none`). -/
def generateHtml (tmpl : Option (CVRecord → GenJob → String → String))
    (generatedAt : String) (cv : CVRecord) (job : GenJob) : String :=
  match tmpl with
  | some render => render cv job generatedAt
  | none => generateBasicHtml cv job

/-! ## Theorems -/

/-- `fetch_description` only fills the `description` key and never touches
the posting's identifier. -/
theorem fetchDescription_preserves_id (env : FetchEnv) (j : Job) :
    (fetchDescription env j).id = j.id := by
  unfold fetchDescription
  dsimp only
  repeat' split
  all_goals rfl

/-- In a list of postings with pairwise-distinct identifiers, filtering for
the identifier of a member finds exactly that member. -/
theorem filter_id_eq_singleton :
    ∀ (l : List Job), (l.map Job.id).Nodup → ∀ a ∈ l, l.filter (fun x => x.id = a.id) = [a] := by
  intro l
  induction l with
  | nil => intro _ a ha; cases ha
  | cons b t ih =>
    intro h a ha
    rw [List.map_cons, List.nodup_cons] at h
    rcases List.mem_cons.mp ha with rfl | hat
    · rw [List.filter_cons_of_pos (by simp)]
      have ht : t.filter (fun x => x.id = a.id) = [] := by
        apply List.filter_eq_nil_iff.mpr
        intro x hx
        simp only [decide_eq_true_eq]
        intro hfx
        exact h.1 (hfx ▸ List.mem_map_of_mem Job.id hx)
      rw [ht]
    · have hne : ¬ (b.id = a.id) := fun heq => h.1 (heq ▸ List.mem_map_of_mem Job.id hat)
      rw [List.filter_cons_of_neg (by simpa using hne)]
      exact ih h.2 a hat

/-- C2: the parallel description fetch re-emits the postings in exactly
the input order — whatever completion-order permutation the worker pool
produces, correlating the results back by identifier restores the
position-for-position fetched postings. -/
theorem C2_parallel_fetch_order (env : FetchEnv) (jobs results : List Job)
    (hperm : results.Perm (jobs.map (fetchDescription env)))
    (hids : (jobs.map Job.id).Nodup) :
    reassembleInOrder jobs results = jobs.map (fetchDescription env) := by
  unfold reassembleInOrder
  apply List.map_congr_left
  intro j hj
  have hcomp : Job.id ∘ fetchDescription env = Job.id :=
    funext fun x => fetchDescription_preserves_id env x
  have hmapids : ((jobs.map (fetchDescription env)).map Job.id).Nodup := by
    rw [List.map_map, hcomp]; exact hids
  have h1 := filter_id_eq_singleton (jobs.map (fetchDescription env)) hmapids
    (fetchDescription env j) (List.mem_map_of_mem _ hj)
  simp only [fetchDescription_preserves_id] at h1
  have h2 : (results.filter (fun r => r.id = j.id)).Perm
      ((jobs.map (fetchDescription env)).filter (fun r => r.id = j.id)) :=
    hperm.filter _
  rw [h1] at h2
  have h3 := List.perm_singleton.mp h2
  unfold lastWithId
  rw [h3]
  rfl

/-- C2 witness: three postings whose fetches complete in reverse order are
still returned in the original order. -/
theorem C2_parallel_fetch_order_witness :
    reassembleInOrder
      [⟨"a", "TA", "CA", "LA", "ua", none⟩, ⟨"b", "TB", "CB", "LB", "ub", none⟩,
       ⟨"c", "TC", "CC", "LC", "uc", none⟩]
      [⟨"c", "TC", "CC", "LC", "uc", some ("Descripción no disponible")⟩,
       ⟨"b", "TB", "CB", "LB", "ub", some ("Descripción no disponible")⟩,
       ⟨"a", "TA", "CA", "LA", "ua", some ("Descripción no disponible")⟩] =
      [⟨"a", "TA", "CA", "LA", "ua", some ("Descripción no disponible")⟩,
       ⟨"b", "TB", "CB", "LB", "ub", some ("Descripción no disponible")⟩,
       ⟨"c", "TC", "CC", "LC", "uc", some ("Descripción no disponible")⟩] := by
  have h := C2_parallel_fetch_order ⟨fun _ => none, fun _ => [], false, fun _ => none⟩
    [⟨"a", "TA", "CA", "LA", "ua", none⟩, ⟨"b", "TB", "CB", "LB", "ub", none⟩,
     ⟨"c", "TC", "CC", "LC", "uc", none⟩]
    [⟨"c", "TC", "CC", "LC", "uc", some ("Descripción no disponible")⟩,
     ⟨"b", "TB", "CB", "LB", "ub", some ("Descripción no disponible")⟩,
     ⟨"a", "TA", "CA", "LA", "ua", some ("Descripción no disponible")⟩]
    (by decide) (by decide)
  exact h.trans (by decide)

/-- The browser-driven extraction never returns the empty string: either
the selected text passes the 50-character guard (hence is non-empty) or a
literal placeholder is returned. -/
theorem getJobDescription_ne_empty (env : FetchEnv) (url : String) :
    getJobDescription env url ≠ "" := by
  unfold getJobDescription
  split
  · decide
  · split
    · rename_i d hcond
      intro hd
      subst hd
      simp at hcond
    · decide

/-- A positive-length prefix of a string longer than the cut is non-empty. -/
theorem strTake_ne_empty {s : String} (h : 0 < s.length) {n : Nat} (hn : 0 < n) :
    strTake s n ≠ "" := by
  unfold strTake
  intro he
  have hdata : s.data.take n = [] := congrArg String.data he
  rcases List.take_eq_nil_iff.mp hdata with h1 | h2
  · omega
  · have : s.length = 0 := by
      show s.data.length = 0
      rw [h2]; rfl
    omega

/-- C7 (counterexample): an extracted text of *exactly* 50 characters is
not "below the 50-character minimum", so the claim mandates the truncated
extracted text — but the code keeps the extraction only when
`len(description) > 50`, so a 50-character extraction falls through to the
placeholder (no browser session here). -/
theorem C7_fetch_description_counterexample :
    ("aaaaaaaaaaaaaaaaaaaaaaaaaaaaaaaaaaaaaaaaaaaaaaaaaa" : String).length = 50 ∧
    (fetchDescription
      ⟨fun _ => some (200, "body"),
       fun _ => ["aaaaaaaaaaaaaaaaaaaaaaaaaaaaaaaaaaaaaaaaaaaaaaaaaa"], false, fun _ => none⟩
      ⟨"j1", "T", "C", "L", "http://x", none⟩).description = some ("Descripción no disponible") ∧
    some ("Descripción no disponible") ≠
      some (strTake ("aaaaaaaaaaaaaaaaaaaaaaaaaaaaaaaaaaaaaaaaaaaaaaaaaa") 5000) := by
  exact ⟨by decide, by decide, by decide⟩

/-- C7 (amended): the fast-mode per-URL fetch always produces a non-empty
description, and it is the longest pattern-extracted text truncated to
5000 characters when that text exceeds 50 characters; an extraction of at
most 50 characters (the empty one included) falls back to browser-driven
extraction when a session exists and to the `"Descripción no disponible"`
placeholder otherwise; a non-200 status and an exception yield their
placeholders instead of failing. -/
theorem C7_fetch_description_amended (env : FetchEnv) (job : Job) :
    (∃ s, (fetchDescription env job).description = some s ∧ s ≠ "") ∧
    (job.url.isEmpty = true →
      (fetchDescription env job).description = some ("URL no disponible")) ∧
    (job.url.isEmpty = false → env.httpGet job.url = none →
      (fetchDescription env job).description = some ("Descripción no disponible")) ∧
    (∀ status html, job.url.isEmpty = false → env.httpGet job.url = some (status, html) →
      status ≠ 200 →
      (fetchDescription env job).description = some ("Error al obtener descripción")) ∧
    (∀ html, job.url.isEmpty = false → env.httpGet job.url = some (200, html) →
      (50 < (longestMatch (env.patternMatches html)).length →
        (fetchDescription env job).description =
          some (strTake (longestMatch (env.patternMatches html)) 5000)) ∧
      ((longestMatch (env.patternMatches html)).length ≤ 50 →
        (fetchDescription env job).description =
          some (if env.hasDriver then getJobDescription env job.url
                else "Descripción no disponible"))) := by
  refine ⟨?_, fun hu => by simp [fetchDescription, hu], fun hu hg => ?_,
          fun status html hu hg hs => ?_, fun html hu hg => ⟨fun hlong => ?_, fun hshort => ?_⟩⟩
  · by_cases hu : job.url.isEmpty
    · exact ⟨"URL no disponible", by simp [fetchDescription, hu], by decide⟩
    · rw [Bool.not_eq_true] at hu
      match hg : env.httpGet job.url with
      | none =>
        exact ⟨"Descripción no disponible", by simp [fetchDescription, hu, hg], by decide⟩
      | some (status, html) =>
        by_cases hs : status = 200
        · subst hs
          by_cases hc : (!(longestMatch (env.patternMatches html)).isEmpty &&
              decide (50 < (longestMatch (env.patternMatches html)).length)) = true
          · refine ⟨strTake (longestMatch (env.patternMatches html)) 5000,
              by simp only [fetchDescription, hu, hg]; simp [hc], ?_⟩
            have hlen : 50 < (longestMatch (env.patternMatches html)).length :=
              of_decide_eq_true ((Bool.and_eq_true _ _).mp hc).2
            exact strTake_ne_empty (by omega) (by omega)
          · by_cases hd : env.hasDriver
            · exact ⟨getJobDescription env job.url,
                by simp only [fetchDescription, hu, hg]; simp [hc, hd],
                getJobDescription_ne_empty env job.url⟩
            · exact ⟨"Descripción no disponible",
                by simp only [fetchDescription, hu, hg]; simp [hc, hd], by decide⟩
        · exact ⟨"Error al obtener descripción",
            by simp [fetchDescription, hu, hg, hs], by decide⟩
  · simp [fetchDescription, hu, hg]
  · simp [fetchDescription, hu, hg, hs]
  · have hc : (!(longestMatch (env.patternMatches html)).isEmpty &&
        decide (50 < (longestMatch (env.patternMatches html)).length)) = true := by
      refine (Bool.and_eq_true _ _).mpr ⟨?_, by simpa using hlong⟩
      rw [Bool.not_eq_true']
      cases habs : (longestMatch (env.patternMatches html)).isEmpty
      · rfl
      · exfalso
        have hemp : longestMatch (env.patternMatches html) = "" :=
          (String.isEmpty_iff _).mp habs
        rw [hemp] at hlong
        simp at hlong
    simp only [fetchDescription, hu, hg]
    simp [hc]
  · have hdec : decide (50 < (longestMatch (env.patternMatches html)).length) = false :=
      decide_eq_false (by omega)
    have hc : (!(longestMatch (env.patternMatches html)).isEmpty &&
        decide (50 < (longestMatch (env.patternMatches html)).length)) = false := by
      rw [hdec]; exact Bool.and_false _
    simp only [fetchDescription, hu, hg]
    simp [hc]

/-- C7 witness: the amended characterization evaluated at a fetch whose
extraction yields 60 characters (kept and truncated) and at a fetch whose
HTTP call raises (placeholder). -/
theorem C7_fetch_description_amended_witness :
    (fetchDescription
      ⟨fun _ => some (200, "cuerpo"),
       fun _ => ["bbbbbbbbbbbbbbbbbbbbbbbbbbbbbbbbbbbbbbbbbbbbbbbbbbbbbbbbbbbb"],
       false, fun _ => none⟩
      ⟨"j2", "T", "C", "L", "u", none⟩).description =
      some (strTake ("bbbbbbbbbbbbbbbbbbbbbbbbbbbbbbbbbbbbbbbbbbbbbbbbbbbbbbbbbbbb") 5000) ∧
    (fetchDescription ⟨fun _ => none, fun _ => [], false, fun _ => none⟩
      ⟨"j3", "T", "C", "L", "u", none⟩).description = some ("Descripción no disponible") := by
  constructor
  · exact ((C7_fetch_description_amended
      ⟨fun _ => some (200, "cuerpo"),
       fun _ => ["bbbbbbbbbbbbbbbbbbbbbbbbbbbbbbbbbbbbbbbbbbbbbbbbbbbbbbbbbbbb"],
       false, fun _ => none⟩
      ⟨"j2", "T", "C", "L", "u", none⟩).2.2.2.2 "cuerpo" (by decide) (by decide)).1 (by decide)
  · exact (C7_fetch_description_amended
      ⟨fun _ => none, fun _ => [], false, fun _ => none⟩
      ⟨"j3", "T", "C", "L", "u", none⟩).2.2.1 (by decide) (by decide)

/-- C4 (counterexample): on the response `"{bad} 83"` a brace span exists
(`"{bad}"`) but fails to parse, and the bare `except` then fixes the score
at 50 directly — the first bare number `83` is *not* consulted, contrary
to the claim that a parse failure falls back to the pattern-matched
number.  The abstract parser is instantiated as the all-rejecting one,
which agrees with `json.loads` on the only span queried (`"{bad}"` is not
valid JSON). -/
theorem C4_match_score_counterexample :
    calculateMatchScoreParse (fun _ => none) ("\x7bbad\x7d 83") =
      Json.obj [("score_total", Json.num 50), ("raw_response", Json.str ("\x7bbad\x7d 83"))] ∧
    firstNumber ("\x7bbad\x7d 83").data = some 83 ∧ (50 : Int) ≠ 83 := by
  exact ⟨rfl, by decide, by decide⟩

/-- C4 (amended): match-score parsing locates the first `{` and the last
`}`; when that span exists it is handed to the JSON parser — success
returns the parsed record, failure yields the raw-text record with the
score fixed at 50; only when *no* span exists does the parser fall back to
the first bare number in the text (three digits at most), defaulting to 50
when none is found.  The function is total, so no input raises. -/
theorem C4_match_score_amended (jsonParse : String → Option Json) (response : String) :
    (∀ i rb, strFind response lbraceChar = some i → strRfind response rbraceChar = some rb →
      i < rb + 1 →
      (∀ v, jsonParse (strSlice response i (rb + 1)) = some v →
        calculateMatchScoreParse jsonParse response = v) ∧
      (jsonParse (strSlice response i (rb + 1)) = none →
        calculateMatchScoreParse jsonParse response =
          Json.obj [("score_total", Json.num 50), ("raw_response", Json.str response)])) ∧
    (strFind response lbraceChar = none →
      calculateMatchScoreParse jsonParse response = matchScoreNumberFallback response) ∧
    (strRfind response rbraceChar = none →
      calculateMatchScoreParse jsonParse response = matchScoreNumberFallback response) ∧
    (∀ i rb, strFind response lbraceChar = some i → strRfind response rbraceChar = some rb →
      ¬ i < rb + 1 →
      calculateMatchScoreParse jsonParse response = matchScoreNumberFallback response) ∧
    (∀ r, matchScoreNumberFallback r =
      Json.obj [("score_total", Json.num ((firstNumber r.data).getD 50 : Nat)),
                ("raw_response", Json.str r)]) := by
  refine ⟨fun i rb hf hr hlt => ⟨fun v hv => ?_, fun hv => ?_⟩,
          fun hf => ?_, fun hr => ?_, fun i rb hf hr hlt => ?_, fun r => rfl⟩
  · simp [calculateMatchScoreParse, hf, hr, hlt, hv]
  · simp [calculateMatchScoreParse, hf, hr, hlt, hv]
  · cases hr : strRfind response rbraceChar <;>
      simp [calculateMatchScoreParse, hf, hr]
  · cases hf : strFind response lbraceChar <;>
      simp [calculateMatchScoreParse, hf, hr]
  · simp [calculateMatchScoreParse, hf, hr, hlt]

/-- C4 witness: the amended theorem evaluated on a parsable structured
response (score 83) and on a response with no span (first bare number 77). -/
theorem C4_match_score_amended_witness :
    calculateMatchScoreParse (fun _ => some (Json.obj [("score_total", Json.num 83)]))
      ("\x7b\"score_total\": 83\x7d") = Json.obj [("score_total", Json.num 83)] ∧
    calculateMatchScoreParse (fun _ => none) ("puntuacion 77") =
      matchScoreNumberFallback ("puntuacion 77") := by
  constructor
  · exact ((C4_match_score_amended (fun _ => some (Json.obj [("score_total", Json.num 83)]))
      ("\x7b\"score_total\": 83\x7d")).1 0 18 (by decide) (by decide) (by decide)).1
      (Json.obj [("score_total", Json.num 83)]) rfl
  · exact (C4_match_score_amended (fun _ => none) ("puntuacion 77")).2.1 (by decide)

/-- C3 (counterexample): a profile with all four personal fields, one
education entry, one *complete* experience entry (position, company,
responsibilities) and one language skill — but a second, incomplete
experience entry — satisfies every hypothesis of the claim yet gets a
non-empty issue list: `validate_profile` demands the three fields of
*every* experience entry, not just of one. -/
theorem C3_validate_counterexample :
    validate_profile
      ⟨some ⟨some ("Ana"), some ("García"), some ("ana@ejemplo.com"), some ("600111222"),
             none, none, none, none⟩,
       some [⟨some ("Grado en Informática"), some ("UCM"), some ("2015-09"), some ("2019-06")⟩],
       some [⟨some ("Backend Engineer"), some ("Acme"), some ("2020-01"), some ("2022-06"),
              some ["Desarrollo de APIs"]⟩,
             ⟨none, none, none, none, none⟩],
       some ⟨some [SkillItem.plain ("Python")], none, none, none, none⟩,
       none⟩ =
      ["Experiencia #2: falta el puesto", "Experiencia #2: falta la empresa",
       "Experiencia #2: faltan responsabilidades"] := by decide

/-- C3 (amended): a missing (or falsy) required personal field puts its
`Falta campo requerido` message in the issue list (hence the list is
non-empty); and a profile with all four personal fields, at least one
education entry, at least one experience entry *all of whose* entries have
position, company and responsibilities, and a non-empty
`habilidades_tecnicas.lenguajes` list validates with no issues. -/
theorem C3_validate_amended (p : ProfileDoc) :
    (truthyStr (p.personal_information.getD emptyPersonal).nombre = false →
      "Falta campo requerido: personal_information.nombre" ∈ validate_profile p) ∧
    (truthyStr (p.personal_information.getD emptyPersonal).apellidos = false →
      "Falta campo requerido: personal_information.apellidos" ∈ validate_profile p) ∧
    (truthyStr (p.personal_information.getD emptyPersonal).email = false →
      "Falta campo requerido: personal_information.email" ∈ validate_profile p) ∧
    (truthyStr (p.personal_information.getD emptyPersonal).telefono = false →
      "Falta campo requerido: personal_information.telefono" ∈ validate_profile p) ∧
    (truthyStr (p.personal_information.getD emptyPersonal).nombre = true →
     truthyStr (p.personal_information.getD emptyPersonal).apellidos = true →
     truthyStr (p.personal_information.getD emptyPersonal).email = true →
     truthyStr (p.personal_information.getD emptyPersonal).telefono = true →
     (p.educacion.getD []).isEmpty = false →
     (p.experiencia.getD []).isEmpty = false →
     (∀ exp ∈ p.experiencia.getD [], truthyStr exp.puesto = true ∧
        truthyStr exp.empresa = true ∧ truthyList exp.responsabilidades = true) →
     truthyList (p.habilidades_tecnicas.getD emptyHabilidades).lenguajes = true →
     validate_profile p = []) := by
  refine ⟨fun h => ?_, fun h => ?_, fun h => ?_, fun h => ?_,
          fun h1 h2 h3 h4 he hx hall hl => ?_⟩
  · simp [validate_profile, h]
  · simp [validate_profile, h]
  · simp [validate_profile, h]
  · simp [validate_profile, h]
  · have hflat : ((p.experiencia.getD []).enum.map
        (fun ie => experienceIssues ie.1 ie.2)).flatten = [] := by
      apply List.flatten_eq_nil_iff.mpr
      intro x hx'
      obtain ⟨ie, hie, rfl⟩ := List.mem_map.mp hx'
      obtain ⟨hp, hemp, hr⟩ := hall ie.2 (List.snd_mem_of_mem_enum hie)
      simp [experienceIssues, hp, hemp, hr]
    simp [validate_profile, h1, h2, h3, h4, he, hx, hl, hflat]

/-- C3 witness: the amended theorem evaluated at a profile missing its
email and at a fully valid profile. -/
theorem C3_validate_amended_witness :
    "Falta campo requerido: personal_information.email" ∈ validate_profile
      ⟨some ⟨some ("Ana"), some ("García"), none, some ("600111222"), none, none, none, none⟩,
       none, none, none, none⟩ ∧
    validate_profile
      ⟨some ⟨some ("Ana"), some ("García"), some ("ana@ejemplo.com"), some ("600111222"),
             none, none, none, none⟩,
       some [⟨some ("Grado en Informática"), some ("UCM"), some ("2015-09"), some ("2019-06")⟩],
       some [⟨some ("Backend Engineer"), some ("Acme"), some ("2020-01"), some ("2022-06"),
              some ["Desarrollo de APIs"]⟩],
       some ⟨some [SkillItem.plain ("Python")], none, none, none, none⟩,
       none⟩ = [] := by
  constructor
  · exact (C3_validate_amended
      ⟨some ⟨some ("Ana"), some ("García"), none, some ("600111222"), none, none, none, none⟩,
       none, none, none, none⟩).2.2.1 (by decide)
  · exact (C3_validate_amended
      ⟨some ⟨some ("Ana"), some ("García"), some ("ana@ejemplo.com"), some ("600111222"),
             none, none, none, none⟩,
       some [⟨some ("Grado en Informática"), some ("UCM"), some ("2015-09"), some ("2019-06")⟩],
       some [⟨some ("Backend Engineer"), some ("Acme"), some ("2020-01"), some ("2022-06"),
              some ["Desarrollo de APIs"]⟩],
       some ⟨some [SkillItem.plain ("Python")], none, none, none, none⟩,
       none⟩).2.2.2.2 (by decide) (by decide) (by decide) (by decide) (by decide) (by decide)
      (by decide) (by decide)

/-- C5 (counterexample): a refused connection on `embed` is *not* raised
to the caller — the `except RequestException` handler returns `[]`, so the
call succeeds with an empty vector instead of propagating the error the
claim requires for every gateway operation "including embed". -/
theorem C5_embed_counterexample :
    embed (α := Nat) Transport.refused = Except.ok [] := rfl

/-- C5 (amended): the gateway failure discipline — `generate` re-raises a
timeout as `TimeoutError` and any other network error as is, `chat`
re-raises every network error, while the probes `check_connection` and
`list_models` degrade to `false`/`[]`, and `embed` likewise degrades to
`[]` instead of raising. -/
theorem C5_failure_discipline :
    (checkConnection Transport.timeout = false ∧ checkConnection Transport.refused = false) ∧
    (listModels Transport.timeout = [] ∧ listModels Transport.refused = []) ∧
    (generate Transport.timeout = Except.error ClientError.timeoutError ∧
     generate Transport.refused = Except.error ClientError.requestError) ∧
    (chat Transport.timeout = Except.error ClientError.requestError ∧
     chat Transport.refused = Except.error ClientError.requestError) ∧
    (∀ (α : Type), embed (α := α) Transport.timeout = Except.ok [] ∧
     embed (α := α) Transport.refused = Except.ok []) :=
  ⟨⟨rfl, rfl⟩, ⟨rfl, rfl⟩, ⟨rfl, rfl⟩, ⟨rfl, rfl⟩, fun _ => ⟨rfl, rfl⟩⟩

/-- C6 (counterexample): a generate request for a job id with *no* stored
document does not raise the "not found" condition — `_load_job` returns
the hard-coded substitute test job, so the `ValueError` guard in
`generate` never fires. -/
theorem C6_load_job_counterexample :
    generateLoadStep [] "abc123" = Except.ok (testJob "abc123") ∧
    testJob "abc123" = ⟨"abc123", "Software Developer", "Test Company",
      "Looking for a skilled developer...", "Remote"⟩ := ⟨rfl, rfl⟩

/-- C6 (amended): a missing profile document raises a distinct
`FileNotFoundError`, but a generate request naming an unknown job id
proceeds with the substitute test job — `_load_job` never returns `None`,
so the not-found branch of `generate` is unreachable. -/
theorem C6_not_found_amended :
    (∀ (path : String), loadProfile path none = Except.error ("Perfil no encontrado: " ++ path)) ∧
    (∀ (path : String) (p : ProfileDoc), loadProfile path (some p) = Except.ok p) ∧
    (∀ (store : List StoredJob) (jobId : String), ∃ j, generateLoadStep store jobId = Except.ok j) ∧
    (∀ (jobId : String), generateLoadStep [] jobId = Except.ok (testJob jobId)) := by
  refine ⟨fun _ => rfl, fun _ _ => rfl, fun store jobId => ?_, fun _ => rfl⟩
  unfold generateLoadStep loadJob
  cases h : store.find? (fun e => e.job.id.startsWith jobId || strContains e.path jobId) with
  | none => exact ⟨testJob jobId, by simp [h]⟩
  | some e => exact ⟨e.job, by simp [h]⟩

/-- C8: the dashboard's single-task discipline — a start request is
rejected with the state untouched while `current_task` is truthy; an
accepted start sets the flag (and the fresh progress fields) before the
background task is dispatched; and the synchronous runners' `finally`
block resets the flag to idle whether the body completed or raised. -/
theorem C8_single_task (s : AppTaskState) (body : AppTaskState → AppTaskState) :
    (truthyStr s.currentTask = true →
      startSearch s = (Except.error ("Ya hay una tarea en ejecución"), s) ∧
      startGenerate s = (Except.error ("Ya hay una tarea en ejecución"), s)) ∧
    (truthyStr s.currentTask = false →
      (startSearch s).1 = Except.ok ("Búsqueda iniciada") ∧
      (startSearch s).2.currentTask = some ("search") ∧
      (startGenerate s).1 = Except.ok ("Generación iniciada") ∧
      (startGenerate s).2.currentTask = some ("generate")) ∧
    (runSyncTask body s).currentTask = none := by
  refine ⟨fun h => ?_, fun h => ?_, rfl⟩
  · constructor <;> simp [startSearch, startGenerate, h]
  · refine ⟨?_, ?_, ?_, ?_⟩ <;> simp [startSearch, startGenerate, h]

/-- C8 witness: the discipline evaluated at a busy and at an idle state,
with an arbitrary concrete task body. -/
theorem C8_single_task_witness :
    startSearch ⟨some ("search"), 30, "Buscando...", []⟩ =
      (Except.error ("Ya hay una tarea en ejecución"), ⟨some ("search"), 30, "Buscando...", []⟩) ∧
    (startGenerate ⟨none, 0, "", []⟩).2.currentTask = some ("generate") ∧
    (runSyncTask id ⟨some ("search"), 30, "Buscando...", []⟩).currentTask = none := by
  refine ⟨((C8_single_task ⟨some ("search"), 30, "Buscando...", []⟩ id).1 (by decide)).1,
          ((C8_single_task ⟨none, 0, "", []⟩ id).2.1 (by decide)).2.2.2,
          (C8_single_task ⟨some ("search"), 30, "Buscando...", []⟩ id).2.2⟩

/-- C9: document rendering is deterministic in its inputs — with the
generation timestamp pinned to the same value, two renders of the same
personalized-CV record and job produce the same HTML string, and the
hand-built fallback skeleton does not depend on the timestamp at all. -/
theorem C9_render_deterministic (tmpl : Option (CVRecord → GenJob → String → String))
    (cv : CVRecord) (job : GenJob) (t₁ t₂ : String) :
    (t₁ = t₂ → generateHtml tmpl t₁ cv job = generateHtml tmpl t₂ cv job) ∧
    generateHtml none t₁ cv job = generateHtml none t₂ cv job := by
  refine ⟨fun h => by rw [h], rfl⟩

/-- C9 witness: two pinned renders of a concrete record coincide. -/
theorem C9_render_deterministic_witness :
    generateHtml none ("2024-01-01 10:00")
      ⟨none, some ("Resumen"), ExperienceField.otherVal, none, none, none⟩
      ⟨"id1", "T", "C", "D", "L"⟩ =
    generateHtml none ("2024-01-01 10:00")
      ⟨none, some ("Resumen"), ExperienceField.otherVal, none, none, none⟩
      ⟨"id1", "T", "C", "D", "L"⟩ :=
  (C9_render_deterministic none
    ⟨none, some ("Resumen"), ExperienceField.otherVal, none, none, none⟩
    ⟨"id1", "T", "C", "D", "L"⟩ ("2024-01-01 10:00") ("2024-01-01 10:00")).1 rfl

/-- C10: the profile-update endpoint is atomic on error — the YAML body is
parsed before anything is written, so an invalid body yields the client
error with the stored file exactly as it was. -/
theorem C10_update_profile_atomic {Y : Type} (yamlParse : String → Option Y)
    (content : String) (stored : Option String) (h : yamlParse content = none) :
    updateProfile yamlParse content stored = (Except.error ("Error en formato YAML"), stored) := by
  simp [updateProfile, h]

/-- C10 witness: the endpoint evaluated with a parser rejecting the body
and a present stored profile. -/
theorem C10_update_profile_atomic_witness :
    updateProfile (Y := Unit) (fun _ => none) ("][ not yaml") (some ("old: profile")) =
      (Except.error ("Error en formato YAML"), some ("old: profile")) :=
  C10_update_profile_atomic (Y := Unit) (fun _ => none) ("][ not yaml") (some ("old: profile")) rfl

end AutoCV
